import Mathlib

/-!
Verification of the offline audio-quality analysis engine
(`audio_analyzer.py`, function `analyze_wav`).

The engine is a four-stage pipeline over one decoded waveform:
Decoder → Channel Reducer → Metric Suite → Verdict Engine.

Embedding conventions:
* Raw decoded samples are integers (`List ℤ`), the mono float sequence is a
  list of exact rationals (`List ℚ`): every value a 16-bit decode can produce
  is rational, and the metric arithmetic on them (sums, means, counts,
  comparisons) is exact rational arithmetic here.
* Transcendental metrics (`20·log10`, square roots) live in `ℝ` via
  `Real.logb 10` and `Real.sqrt`.
* `np.mean` of an empty array is NaN in numpy; we model a possibly-NaN
  mean as `Option ℚ` (`none` = NaN) where the source can actually reach
  an empty slice, and metrics that can be NaN as `Option ℝ`.
* `np.max` of an empty array raises `ValueError`; the whole suite is
  therefore `Except String MetricReport`, failing on an empty sequence
  exactly as the source does.
-/

namespace AudioAnalyzer

/-! ## Channel Reducer (lines 39–47 of `audio_analyzer.py`) -/

/-- Splits an interleaved sample list into frames of `c` samples each,
modelling `audio_array.reshape((-1, n_channels))`.  Structural recursion:
for `c ≥ 1`, `rest.drop (c - 1)` is exactly `(x :: rest).drop c`. -/
def toFrames (c : ℕ) : List ℤ → List (List ℤ)
  | [] => []
  | x :: rest => ((x :: rest).take c) :: toFrames c (rest.drop (c - 1))
termination_by l => l.length
decreasing_by
  simp only [List.length_drop, List.length_cons]
  omega

/-- Mono mix, modelling lines 39–44: for more than one channel, the mean of
each frame (`np.mean(audio_array, axis=1)`); otherwise the samples unchanged. -/
def audioMono (c : ℕ) (raw : List ℤ) : List ℚ :=
  if 1 < c then
    (toFrames c raw).map (fun f => (f.sum : ℚ) / (f.length : ℚ))
  else
    raw.map (fun s => (s : ℚ))

/-- Normalized mono float sequence, modelling line 47:
`audio_float = audio_mono.astype(np.float32) / 32768.0`. -/
def audioFloat (c : ℕ) (raw : List ℤ) : List ℚ :=
  (audioMono c raw).map (fun x => x / 32768)

/-! ## Metric Suite (lines 54–112) -/

/-- Peak level, modelling line 55: `np.max(np.abs(audio_float))`.
The fold with base `0` agrees with `np.max` on every non-empty list since
absolute values are non-negative; on the empty list `np.max` raises instead
(captured by `analyzeWav`). -/
def peak (xs : List ℚ) : ℚ :=
  (xs.map (fun x => |x|)).foldr max 0

/-- Peak level in dB, modelling line 56: `20 * np.log10(peak + 1e-10)`. -/
noncomputable def peakDb (xs : List ℚ) : ℝ :=
  20 * Real.logb 10 ((peak xs : ℝ) + 1e-10)

/-- Root mean square, modelling line 59: `np.sqrt(np.mean(audio_float ** 2))`. -/
noncomputable def rms (xs : List ℚ) : ℝ :=
  Real.sqrt ((((xs.map (fun x => x ^ 2)).sum : ℚ) : ℝ) / (xs.length : ℝ))

/-- RMS in dB, modelling line 60: `20 * np.log10(rms + 1e-10)`. -/
noncomputable def rmsDb (xs : List ℚ) : ℝ :=
  20 * Real.logb 10 (rms xs + 1e-10)

/-- DC offset, modelling line 63: `np.mean(audio_float)`. -/
def meanVal (xs : List ℚ) : ℚ :=
  xs.sum / (xs.length : ℚ)

/-- Crest factor, modelling line 66: `peak / (rms + 1e-10)`. -/
noncomputable def crest (xs : List ℚ) : ℝ :=
  (peak xs : ℝ) / (rms xs + 1e-10)

/-- Hard-clip predicate from line 75: `np.abs(audio_float) >= 0.99`. -/
def hardPred (x : ℚ) : Bool :=
  decide ((0.99 : ℚ) ≤ |x|)

/-- Soft-clip predicate from line 76:
`(np.abs(audio_float) >= 0.95) & (np.abs(audio_float) < 0.99)`. -/
def softPred (x : ℚ) : Bool :=
  decide ((0.95 : ℚ) ≤ |x| ∧ |x| < (0.99 : ℚ))

/-- Hard-clipped sample count, modelling line 75. -/
def hardClipCount (xs : List ℚ) : ℕ :=
  xs.countP hardPred

/-- Soft-clipped sample count, modelling line 76. -/
def softClipCount (xs : List ℚ) : ℕ :=
  xs.countP softPred

/-- Hard-clip percentage, modelling line 78: `(hard_clip / len) * 100`. -/
def hardClipPct (xs : List ℚ) : ℚ :=
  ((hardClipCount xs : ℚ) / (xs.length : ℚ)) * 100

/-- Soft-clip percentage, modelling line 79: `(soft_clip / len) * 100`. -/
def softClipPct (xs : List ℚ) : ℚ :=
  ((softClipCount xs : ℚ) / (xs.length : ℚ)) * 100

/-- Mean of a list, modelling `np.mean`: numpy returns NaN on an empty
array (`none` here), otherwise the exact arithmetic mean. -/
def npMean (l : List ℚ) : Option ℚ :=
  if l = [] then none else some (l.sum / (l.length : ℚ))

/-- Half length from line 93: `half_size = len(audio_float) // 2`. -/
def halfSize (xs : List ℚ) : ℕ :=
  xs.length / 2

/-- Pointwise absolute differences between the first half and the reversed
second half, modelling line 94:
`np.abs(audio_float[:half_size] - audio_float[-half_size:][::-1])`.
(For `half_size = 0` the numpy expression broadcasts to an empty array, as
the empty `zipWith` does here.) -/
def symDiffs (xs : List ℚ) : List ℚ :=
  List.zipWith (fun a b => |a - b|)
    (xs.take (halfSize xs))
    ((xs.drop (xs.length - halfSize xs)).reverse)

/-- THD estimate, modelling lines 94–95:
`thd_est = min(100, (sym_error / (rms + 1e-10)) * 100)` where
`sym_error = np.mean(symDiffs)`.  When the diff array is empty (length ≤ 1),
`sym_error` is NaN and Python's `min(100, nan)` keeps its first argument,
so the result is `100`. -/
noncomputable def thdEst (xs : List ℚ) : ℝ :=
  match npMean (symDiffs xs) with
  | none => 100
  | some e => min 100 (((e : ℝ) / (rms xs + 1e-10)) * 100)

/-- Sorted absolute magnitudes, modelling line 109:
`np.sort(np.abs(audio_float))`. -/
def sortedMag (xs : List ℚ) : List ℚ :=
  (xs.map (fun x => |x|)).insertionSort (fun a b => a ≤ b)

/-- Noise-floor slice length from line 110: `len(sorted_mag) // 10`. -/
def noiseFloorIdx (xs : List ℚ) : ℕ :=
  xs.length / 10

/-- Noise floor, modelling line 111:
`np.sqrt(np.mean(sorted_mag[:noise_floor_idx] ** 2))`.
For fewer than 10 samples the slice is empty, its numpy mean is NaN and so
is the square root: `none` models that NaN. -/
noncomputable def noiseFloor (xs : List ℚ) : Option ℝ :=
  match npMean (((sortedMag xs).take (noiseFloorIdx xs)).map (fun x => x ^ 2)) with
  | none => none
  | some m => some (Real.sqrt ((m : ℝ)))

/-- Signal-to-noise ratio, modelling line 112:
`snr = 20 * np.log10((peak + 1e-10) / (noise_floor + 1e-10))`; NaN (`none`)
exactly when the noise floor is NaN. -/
noncomputable def snrDb (xs : List ℚ) : Option ℝ :=
  match noiseFloor xs with
  | none => none
  | some nf => some (20 * Real.logb 10 (((peak xs : ℝ) + 1e-10) / (nf + 1e-10)))

/-! ## Verdict Engine (lines 125–144) -/

open Classical in
/-- Final assessment, modelling lines 125–144 literally: score starts at 100
and an issue list starts empty; one `if/elif/elif` clipping chain, then the
independent quiet check, then the independent DC-offset check, each
subtracting points and appending its issue string. -/
noncomputable def finalAssessment (xs : List ℚ) : ℤ × List String :=
  let s0 : ℤ × List String := (100, [])
  let s1 : ℤ × List String :=
    if 0 < peakDb xs then
      (s0.1 - 40, s0.2 ++ ["CRITICAL: Digital clipping (peak >= 0dB)"])
    else if (0.1 : ℚ) < hardClipPct xs then
      (s0.1 - 30, s0.2 ++ ["Hard clipping detected"])
    else if (2 : ℚ) < softClipPct xs then
      (s0.1 - 10, s0.2 ++ ["Moderate soft clipping"])
    else s0
  let s2 : ℤ × List String :=
    if peakDb xs < -24 then
      (s1.1 - 20, s1.2 ++ ["Signal too quiet (<-24dB)"])
    else s1
  let s3 : ℤ × List String :=
    if (0.01 : ℚ) < |meanVal xs| then
      (s2.1 - 10, s2.2 ++ ["DC offset present"])
    else s2
  s3

/-- Final score (line 146). -/
noncomputable def score (xs : List ℚ) : ℤ :=
  (finalAssessment xs).1

/-- Ordered issue list (lines 158–163). -/
noncomputable def issues (xs : List ℚ) : List String :=
  (finalAssessment xs).2

/-! ## Full metric report -/

/-- The thirteen metrics plus the verdict, as printed by `analyze_wav`.
`noiseFloor`/`snrDb` are `Option ℝ` because the source can produce NaN for
them (slice of fewer than 10 samples). -/
structure MetricReport where
  peak : ℚ
  peakDb : ℝ
  rms : ℝ
  rmsDb : ℝ
  dcOffset : ℚ
  crest : ℝ
  hardClipCount : ℕ
  hardClipPct : ℚ
  softClipCount : ℕ
  softClipPct : ℚ
  thdEstPct : ℝ
  noiseFloor : Option ℝ
  snrDb : Option ℝ
  score : ℤ
  issues : List String

/-- The Metric Suite plus Verdict Engine on a mono float sequence.  On an
empty sequence the very first reduction, `np.max` on line 55, raises
`ValueError: zero-size array to reduction operation maximum which has no
identity`, which `analyze_wav` catches and turns into a failed run (no
report, exit code 1); otherwise the full report is produced. -/
noncomputable def analyzeWav (xs : List ℚ) : Except String MetricReport :=
  if xs = [] then
    Except.error "zero-size array to reduction operation maximum which has no identity"
  else
    Except.ok
      { peak := peak xs
        peakDb := peakDb xs
        rms := rms xs
        rmsDb := rmsDb xs
        dcOffset := meanVal xs
        crest := crest xs
        hardClipCount := hardClipCount xs
        hardClipPct := hardClipPct xs
        softClipCount := softClipCount xs
        softClipPct := softClipPct xs
        thdEstPct := thdEst xs
        noiseFloor := noiseFloor xs
        snrDb := snrDb xs
        score := score xs
        issues := issues xs }

/-! ## Helper lemmas -/

open Classical in
/-- The sequential score/issue chain of lines 125–144 decomposes into a
clipping deduction (at most one of the three rules), a quiet deduction and a
DC deduction, with the issues appended in that order. -/
lemma finalAssessment_eq (xs : List ℚ) :
    finalAssessment xs =
      (100
        - (if 0 < peakDb xs then 40
           else if (0.1 : ℚ) < hardClipPct xs then 30
           else if (2 : ℚ) < softClipPct xs then 10
           else 0)
        - (if peakDb xs < -24 then 20 else 0)
        - (if (0.01 : ℚ) < |meanVal xs| then 10 else 0),
       ((if 0 < peakDb xs then ["CRITICAL: Digital clipping (peak >= 0dB)"]
         else if (0.1 : ℚ) < hardClipPct xs then ["Hard clipping detected"]
         else if (2 : ℚ) < softClipPct xs then ["Moderate soft clipping"]
         else [])
        ++ (if peakDb xs < -24 then ["Signal too quiet (<-24dB)"] else [])
        ++ (if (0.01 : ℚ) < |meanVal xs| then ["DC offset present"] else []))) := by
  unfold finalAssessment
  split_ifs <;> simp

/-- The epsilon `1e-10` of the source is `10 ^ (-10)`, so its base-10
logarithm is exactly `-10`. -/
lemma logb_ten_eps : Real.logb 10 (1e-10 : ℝ) = -10 := by
  have h : (1e-10 : ℝ) = (10 : ℝ) ^ (-10 : ℝ) := by
    rw [show (-10 : ℝ) = ((-10 : ℤ) : ℝ) by norm_num, Real.rpow_intCast]
    norm_num
  rw [h, Real.logb_rpow (by norm_num) (by norm_num)]

/-- Peak of a one-element sequence with a non-negative sample. -/
lemma peak_singleton (x : ℚ) (hx : 0 ≤ x) : peak [x] = x := by
  rw [peak]
  simp [abs_of_nonneg hx, hx]

/-- DC offset of a one-element sequence. -/
lemma meanVal_singleton (x : ℚ) : meanVal [x] = x := by
  rw [meanVal]
  simp

/-- Every element produced by the symmetry-difference list is an absolute
value, hence non-negative. -/
lemma zipWith_absSub_nonneg :
    ∀ (l1 l2 : List ℚ) (y : ℚ),
      y ∈ List.zipWith (fun a b => |a - b|) l1 l2 → 0 ≤ y := by
  intro l1
  induction l1 with
  | nil => intro l2 y hy; simp at hy
  | cons a t ih =>
    intro l2 y hy
    cases l2 with
    | nil => simp at hy
    | cons b t2 =>
      rw [List.zipWith_cons_cons, List.mem_cons] at hy
      rcases hy with h | h
      · rw [h]; exact abs_nonneg _
      · exact ih t2 y h

/-- Peak of an all-zero sequence is zero. -/
lemma peak_of_all_zero :
    ∀ xs : List ℚ, (∀ x ∈ xs, x = 0) → peak xs = 0 := by
  intro xs
  induction xs with
  | nil => intro _; rfl
  | cons a t ih =>
    intro hz
    have ha : a = 0 := hz a (List.mem_cons_self a t)
    have ht : peak t = 0 := ih (fun x hx => hz x (List.mem_cons_of_mem a hx))
    show (List.map (fun x => |x|) (a :: t)).foldr max 0 = 0
    rw [List.map_cons, List.foldr_cons]
    have ht2 : (List.map (fun x => |x|) t).foldr max 0 = 0 := ht
    rw [ht2, ha, abs_zero, max_self]

/-- RMS of an all-zero sequence is zero. -/
lemma rms_of_all_zero (xs : List ℚ) (hz : ∀ x ∈ xs, x = 0) : rms xs = 0 := by
  have hs : (xs.map (fun x => x ^ 2)).sum = 0 := by
    apply List.sum_eq_zero
    intro y hy
    rcases List.mem_map.mp hy with ⟨x, hx, rfl⟩
    rw [hz x hx]
    ring
  rw [rms, hs]
  push_cast
  rw [zero_div, Real.sqrt_zero]

/-- DC offset of an all-zero sequence is zero. -/
lemma meanVal_of_all_zero (xs : List ℚ) (hz : ∀ x ∈ xs, x = 0) :
    meanVal xs = 0 := by
  rw [meanVal, List.sum_eq_zero hz, zero_div]

/-- The hard-clip predicate rejects the zero sample. -/
lemma hardPred_zero : hardPred 0 = false := by
  rw [hardPred, decide_eq_false_iff_not]
  norm_num

/-- The soft-clip predicate rejects the zero sample. -/
lemma softPred_zero : softPred 0 = false := by
  rw [softPred, decide_eq_false_iff_not]
  norm_num

/-- The clip counts of an all-zero sequence vanish. -/
lemma clipCounts_of_all_zero (xs : List ℚ) (hz : ∀ x ∈ xs, x = 0) :
    hardClipCount xs = 0 ∧ softClipCount xs = 0 := by
  constructor
  · apply List.countP_eq_zero.mpr
    intro a ha
    rw [hz a ha, hardPred_zero]
    simp
  · apply List.countP_eq_zero.mpr
    intro a ha
    rw [hz a ha, softPred_zero]
    simp

/-- The epsilon-guarded peak dB of an all-zero sequence is exactly −200. -/
lemma peakDb_of_all_zero (xs : List ℚ) (hz : ∀ x ∈ xs, x = 0) :
    peakDb xs = -200 := by
  rw [peakDb, peak_of_all_zero xs hz]
  push_cast
  rw [zero_add, logb_ten_eps]
  norm_num

/-! ## Claim theorems -/

/-- C1: an empty sample sequence reaching the Metric Suite makes the
analysis fail (here with the zero-size-reduction error that `np.max` raises
on line 55, the insufficient-data failure of the suite); no report — in
particular no report of zeros — is produced. -/
theorem C1_empty_input_fails :
    analyzeWav ([] : List ℚ) =
      Except.error "zero-size array to reduction operation maximum which has no identity" := by
  rfl

/-- C3: the score is an ordered chain from 100 in which at most one of the
three clipping rules fires (peak rule first, else hard-clip > 0.1, else
soft-clip > 2), while the quiet rule (−20) and the DC-offset rule (−10) are
evaluated independently and can each apply in addition. -/
theorem C3_score_chain (xs : List ℚ) :
    finalAssessment xs =
      (100
        - (if 0 < peakDb xs then 40
           else if (0.1 : ℚ) < hardClipPct xs then 30
           else if (2 : ℚ) < softClipPct xs then 10
           else 0)
        - (if peakDb xs < -24 then 20 else 0)
        - (if (0.01 : ℚ) < |meanVal xs| then 10 else 0),
       ((if 0 < peakDb xs then ["CRITICAL: Digital clipping (peak >= 0dB)"]
         else if (0.1 : ℚ) < hardClipPct xs then ["Hard clipping detected"]
         else if (2 : ℚ) < softClipPct xs then ["Moderate soft clipping"]
         else [])
        ++ (if peakDb xs < -24 then ["Signal too quiet (<-24dB)"] else [])
        ++ (if (0.01 : ℚ) < |meanVal xs| then ["DC offset present"] else []))) :=
  finalAssessment_eq xs

/-- C5: whenever a verdict is produced (the sequence is non-empty, so the
suite does not fail), the final score is an integer in [0, 100]. -/
theorem C5_score_in_range (xs : List ℚ) (_h : xs ≠ []) :
    0 ≤ score xs ∧ score xs ≤ 100 := by
  have hd := finalAssessment_eq xs
  unfold score
  rw [hd]
  dsimp only
  split_ifs <;> norm_num

/-- C5 witness at the concrete input `[0]`. -/
theorem C5_score_in_range_witness :
    ([(0 : ℚ)] ≠ []) ∧ (0 ≤ score [(0 : ℚ)] ∧ score [(0 : ℚ)] ≤ 100) :=
  ⟨by decide, C5_score_in_range [(0 : ℚ)] (by decide)⟩

/-- C10: whenever the verdict rules are evaluated, the score is at least 30:
the clipping rules are mutually exclusive, so no combination of deductions
can push the score below 30 (no lower clamp is ever exercised). -/
theorem C10_score_at_least_30 (xs : List ℚ) (_h : xs ≠ []) :
    30 ≤ score xs := by
  have hd := finalAssessment_eq xs
  unfold score
  rw [hd]
  dsimp only
  split_ifs <;> norm_num

/-- C10 witness at the concrete input `[0]`. -/
theorem C10_score_at_least_30_witness :
    ([(0 : ℚ)] ≠ []) ∧ 30 ≤ score [(0 : ℚ)] :=
  ⟨by decide, C10_score_at_least_30 [(0 : ℚ)] (by decide)⟩

/-- C7: a sample is hard-clipped iff its absolute value is at least 0.99 and
soft-clipped iff its absolute value lies in [0.95, 0.99); the two bands are
mutually exclusive, and a buffer with one sample at 0.97 and the rest at 0
has soft count 1 and hard count 0. -/
theorem C7_clip_bands :
    (∀ x : ℚ,
      (hardPred x = true ↔ (0.99 : ℚ) ≤ |x|)
      ∧ (softPred x = true ↔ ((0.95 : ℚ) ≤ |x| ∧ |x| < (0.99 : ℚ)))
      ∧ ¬(hardPred x = true ∧ softPred x = true))
    ∧ (∀ n : ℕ,
      softClipCount ((0.97 : ℚ) :: List.replicate n 0) = 1
      ∧ hardClipCount ((0.97 : ℚ) :: List.replicate n 0) = 0) := by
  constructor
  · intro x
    refine ⟨by simp [hardPred], by simp [softPred], ?_⟩
    rintro ⟨h1, h2⟩
    simp only [hardPred, decide_eq_true_eq] at h1
    simp only [softPred, decide_eq_true_eq] at h2
    linarith [h2.2]
  · intro n
    have hz : ∀ p : ℚ → Bool, p 0 = false → (List.replicate n (0 : ℚ)).countP p = 0 := by
      intro p hp
      apply List.countP_eq_zero.mpr
      intro a ha
      rw [List.eq_of_mem_replicate ha, hp]
      simp
    have habs : |(0.97 : ℚ)| = 0.97 := abs_of_pos (by norm_num)
    have hs0 : softPred 0 = false := by
      rw [softPred, decide_eq_false_iff_not]
      norm_num
    have hh0 : hardPred 0 = false := by
      rw [hardPred, decide_eq_false_iff_not]
      norm_num
    constructor
    · rw [softClipCount, List.countP_cons]
      rw [hz softPred hs0]
      have : softPred 0.97 = true := by
        rw [softPred, decide_eq_true_eq, habs]
        norm_num
      rw [this]
      simp
    · rw [hardClipCount, List.countP_cons]
      rw [hz hardPred hh0]
      have : hardPred 0.97 = false := by
        rw [hardPred, decide_eq_false_iff_not, habs]
        norm_num
      rw [this]
      simp

/-- C6: for every non-empty all-zero mono sequence, peak, RMS and DC offset
are 0, the crest factor is 0 (in particular finite, thanks to the
epsilon-guarded division), and since the epsilon-guarded peak dB (−200) is
below −24 while no other rule fires, the score is exactly 100 − 20 = 80
with only the quiet issue reported. -/
theorem C6_all_zero_input (xs : List ℚ) (_h : xs ≠ []) (hz : ∀ x ∈ xs, x = 0) :
    peak xs = 0 ∧ rms xs = 0 ∧ meanVal xs = 0 ∧ crest xs = 0
    ∧ score xs = 80 ∧ issues xs = ["Signal too quiet (<-24dB)"] := by
  have hpk := peak_of_all_zero xs hz
  have hrm := rms_of_all_zero xs hz
  have hmv := meanVal_of_all_zero xs hz
  have hdb := peakDb_of_all_zero xs hz
  have hcc := clipCounts_of_all_zero xs hz
  have hcr : crest xs = 0 := by
    rw [crest, hpk]
    push_cast
    rw [zero_div]
  have h1 : ¬ (0 : ℝ) < peakDb xs := by rw [hdb]; norm_num
  have h2 : ¬ (0.1 : ℚ) < hardClipPct xs := by
    rw [hardClipPct, hcc.1]
    push_cast
    rw [zero_div, zero_mul]
    norm_num
  have h3 : ¬ (2 : ℚ) < softClipPct xs := by
    rw [softClipPct, hcc.2]
    push_cast
    rw [zero_div, zero_mul]
    norm_num
  have h4 : peakDb xs < -24 := by rw [hdb]; norm_num
  have h5 : ¬ (0.01 : ℚ) < |meanVal xs| := by
    rw [hmv, abs_zero]
    norm_num
  have hd := finalAssessment_eq xs
  simp only [if_neg h1, if_neg h2, if_neg h3, if_pos h4, if_neg h5] at hd
  refine ⟨hpk, hrm, hmv, hcr, ?_, ?_⟩
  · rw [score, hd]
    norm_num
  · rw [issues, hd]
    simp

/-- C6 witness at the concrete all-zero input `[0]`. -/
theorem C6_all_zero_input_witness :
    (([(0 : ℚ)] ≠ []) ∧ ∀ x ∈ [(0 : ℚ)], x = 0)
    ∧ (peak [(0 : ℚ)] = 0 ∧ rms [(0 : ℚ)] = 0 ∧ meanVal [(0 : ℚ)] = 0
       ∧ crest [(0 : ℚ)] = 0 ∧ score [(0 : ℚ)] = 80
       ∧ issues [(0 : ℚ)] = ["Signal too quiet (<-24dB)"]) :=
  ⟨⟨by decide, by intro x hx; simpa using hx⟩,
    C6_all_zero_input [(0 : ℚ)] (by decide) (by intro x hx; simpa using hx)⟩

/-- C4: the claim that every metric tolerates a length-1 sequence fails in
the code: for a single finite sample the noise-floor slice
`sorted_mag[:len//10]` is empty, numpy's mean of an empty array is NaN, so
`noise_floor` and `snr_dB` are NaN (modelled by `none`), not finite
numbers.  The spec's own design notes call this a gap, so the claim states
the intent and the code is in the wrong. -/
theorem C4_noise_floor_nan_on_single_sample :
    noiseFloor [(1 : ℚ) / 2] = none ∧ snrDb [(1 : ℚ) / 2] = none := by
  constructor <;> rfl

/-- C8: for every non-empty sequence the THD estimate — mean absolute
difference between the first half and the reversed second half, divided by
(rms + ε), times 100, clamped — lies in [0, 100].  (For length ≤ 1 the diff
array is empty, its numpy mean is NaN, and `min(100, nan)` yields 100,
still inside the interval.) -/
theorem C8_thd_in_range (xs : List ℚ) (_h : xs ≠ []) :
    0 ≤ thdEst xs ∧ thdEst xs ≤ 100 := by
  rcases hm : npMean (symDiffs xs) with _ | e
  · unfold thdEst
    rw [hm]
    norm_num
  · have he : (0 : ℚ) ≤ e := by
      rw [npMean] at hm
      by_cases hsd : symDiffs xs = []
      · rw [if_pos hsd] at hm
        exact absurd hm (by simp)
      · rw [if_neg hsd] at hm
        have he2 : (symDiffs xs).sum / ((symDiffs xs).length : ℚ) = e :=
          Option.some.inj hm
        rw [← he2]
        apply div_nonneg
        · exact List.sum_nonneg
            (fun y hy => zipWith_absSub_nonneg _ _ y
              (by simpa [symDiffs] using hy))
        · exact_mod_cast Nat.zero_le _
    have hr : (0 : ℝ) ≤ rms xs := Real.sqrt_nonneg _
    unfold thdEst
    rw [hm]
    constructor
    · apply le_min (by norm_num : (0 : ℝ) ≤ 100)
      apply mul_nonneg _ (by norm_num : (0 : ℝ) ≤ 100)
      apply div_nonneg (by exact_mod_cast he)
      have : (0 : ℝ) < 1e-10 := by norm_num
      linarith
    · exact min_le_left _ _

/-- C8 witness at the concrete input `[1/2]`. -/
theorem C8_thd_in_range_witness :
    ([(1 : ℚ) / 2] ≠ []) ∧ 0 ≤ thdEst [(1 : ℚ) / 2] ∧ thdEst [(1 : ℚ) / 2] ≤ 100 :=
  ⟨by decide, C8_thd_in_range [(1 : ℚ) / 2] (by decide)⟩

/-- Chunking an interleaved list whose first frame has exactly `c` samples
peels off that frame. -/
lemma toFrames_cons_of_length (c : ℕ) (f rest : List ℤ)
    (hc : 0 < c) (hf : f.length = c) :
    toFrames c (f ++ rest) = f :: toFrames c rest := by
  cases f with
  | nil =>
    rw [List.length_nil] at hf
    omega
  | cons y f2 =>
    rw [List.cons_append, toFrames]
    have hlen : f2.length + 1 = c := by
      simpa using hf
    congr 1
    · rw [← hlen, List.take_succ_cons, List.take_left]
    · have hdrop : c - 1 = f2.length := by omega
      rw [hdrop, List.drop_left]

/-- The Channel Reducer on a flattened list of `c`-sample frames produces
the per-frame means, normalized by 32768. -/
lemma audioFloat_join (c : ℕ) (hc : 1 < c) :
    ∀ frames : List (List ℤ), (∀ f ∈ frames, f.length = c) →
      audioFloat c frames.flatten =
        frames.map (fun f => ((f.sum : ℚ) / (c : ℚ)) / 32768) := by
  intro frames
  induction frames with
  | nil =>
    intro _
    rw [audioFloat, audioMono, if_pos hc]
    simp [toFrames]
  | cons f rest ih =>
    intro hf
    have hfc : f.length = c := hf f (List.mem_cons_self f rest)
    have hrest := ih (fun g hg => hf g (List.mem_cons_of_mem f hg))
    rw [audioFloat, audioMono, if_pos hc] at hrest ⊢
    rw [List.flatten_cons, toFrames_cons_of_length c f rest.flatten (by omega) hfc]
    rw [List.map_cons, List.map_cons, hrest]
    rw [hfc, List.map_cons]

/-- The Channel Reducer on mono input only normalizes. -/
lemma audioFloat_mono (raw : List ℤ) :
    audioFloat 1 raw = raw.map (fun s => (s : ℚ) / 32768) := by
  rw [audioFloat, audioMono, if_neg (by norm_num)]
  rw [List.map_map]
  rfl

/-- C9: the Channel Reducer is identity-up-to-normalization on mono input
(`output[i] = raw[i] / 32768`), and on multi-channel input each output
frame is the arithmetic mean of that frame's channel values divided by the
same 32768. -/
theorem C9_channel_reducer (raw : List ℤ) (c : ℕ) (frames : List (List ℤ))
    (hc : 1 < c) (hf : ∀ f ∈ frames, f.length = c) :
    audioFloat 1 raw = raw.map (fun s => (s : ℚ) / 32768)
    ∧ audioFloat c frames.flatten =
        frames.map (fun f => ((f.sum : ℚ) / (c : ℚ)) / 32768) :=
  ⟨audioFloat_mono raw, audioFloat_join c hc frames hf⟩

/-- C9 witness: mono input `[5]` and two stereo frames `[1,2]`, `[3,4]`. -/
theorem C9_channel_reducer_witness :
    ((1 : ℕ) < 2 ∧ ∀ f ∈ [[(1 : ℤ), 2], [3, 4]], f.length = 2)
    ∧ audioFloat 1 [(5 : ℤ)] = [(5 : ℚ) / 32768]
    ∧ audioFloat 2 (List.flatten [[(1 : ℤ), 2], [3, 4]]) =
        [(3 : ℚ) / 2 / 32768, (7 : ℚ) / 2 / 32768] := by
  have h := C9_channel_reducer [(5 : ℤ)] 2 [[(1 : ℤ), 2], [3, 4]]
    (by norm_num) (by intro f hf; fin_cases hf <;> rfl)
  refine ⟨⟨by norm_num, by intro f hf; fin_cases hf <;> rfl⟩, ?_, ?_⟩
  · rw [h.1]
    norm_num
  · rw [h.2]
    norm_num

/-- C2 counterexample: the sequence `[1 - 1e-10]` has peak dB exactly 0
(so "peak_dB equals or exceeds 0 dB" holds), yet the engine does not
subtract 40 and does not append the digital-clipping issue: line 128 tests
`peak_db > 0` strictly, so the hard-clipping branch fires instead and the
verdict is score 60 with the hard-clipping and DC-offset issues. -/
theorem C2_boundary_counterexample :
    (0 : ℝ) ≤ peakDb [(1 : ℚ) - 1e-10]
    ∧ score [(1 : ℚ) - 1e-10] = 60
    ∧ "CRITICAL: Digital clipping (peak >= 0dB)" ∉ issues [(1 : ℚ) - 1e-10]
    ∧ issues [(1 : ℚ) - 1e-10] =
        ["Hard clipping detected", "DC offset present"] := by
  have hx : (0 : ℚ) ≤ 1 - 1e-10 := by norm_num
  have hpk : peak [(1 : ℚ) - 1e-10] = 1 - 1e-10 := peak_singleton _ hx
  have hdb : peakDb [(1 : ℚ) - 1e-10] = 0 := by
    rw [peakDb, hpk]
    have hone : (((1 : ℚ) - 1e-10 : ℚ) : ℝ) + 1e-10 = 1 := by
      push_cast
      norm_num
    rw [hone, Real.logb_one, mul_zero]
  have habs : |(1 : ℚ) - 1e-10| = 1 - 1e-10 := abs_of_nonneg hx
  have hhp : hardPred ((1 : ℚ) - 1e-10) = true := by
    rw [hardPred, decide_eq_true_eq, habs]
    norm_num
  have hcount : hardClipCount [(1 : ℚ) - 1e-10] = 1 := by
    rw [hardClipCount, List.countP_cons, hhp]
    rfl
  have hpct : hardClipPct [(1 : ℚ) - 1e-10] = 100 := by
    rw [hardClipPct, hcount]
    norm_num
  have hmv : meanVal [(1 : ℚ) - 1e-10] = 1 - 1e-10 := meanVal_singleton _
  have h1 : ¬ (0 : ℝ) < peakDb [(1 : ℚ) - 1e-10] := by rw [hdb]; norm_num
  have h2 : (0.1 : ℚ) < hardClipPct [(1 : ℚ) - 1e-10] := by
    rw [hpct]; norm_num
  have h4 : ¬ peakDb [(1 : ℚ) - 1e-10] < -24 := by rw [hdb]; norm_num
  have h5 : (0.01 : ℚ) < |meanVal [(1 : ℚ) - 1e-10]| := by
    rw [hmv, habs]
    norm_num
  have hd := finalAssessment_eq [(1 : ℚ) - 1e-10]
  simp only [if_neg h1, if_pos h2, if_neg h4, if_pos h5] at hd
  refine ⟨by rw [hdb], ?_, ?_, ?_⟩
  · rw [score, hd]
    norm_num
  · rw [issues, hd]
    simp
  · rw [issues, hd]
    simp

/-- C2 amended: for every mono float sequence whose peak dB strictly
exceeds 0 dB, the Verdict Engine subtracts 40, puts the digital-clipping
issue first, skips the hard-clip and soft-clip rules (and the quiet rule,
which cannot co-fire), leaving only the independent DC-offset rule. -/
theorem C2_digital_clipping_priority (xs : List ℚ) (h : 0 < peakDb xs) :
    score xs = 100 - 40 - (if (0.01 : ℚ) < |meanVal xs| then 10 else 0)
    ∧ issues xs =
        "CRITICAL: Digital clipping (peak >= 0dB)"
          :: (if (0.01 : ℚ) < |meanVal xs| then ["DC offset present"] else []) := by
  have hq : ¬ peakDb xs < -24 := by linarith
  have hd := finalAssessment_eq xs
  simp only [if_pos h, if_neg hq] at hd
  constructor
  · rw [score, hd]
    dsimp only
    ring
  · rw [issues, hd]
    split_ifs <;> simp

/-- C2 amended witness at the concrete input `[1]` (peak dB strictly
positive). -/
theorem C2_digital_clipping_priority_witness :
    0 < peakDb [(1 : ℚ)]
    ∧ score [(1 : ℚ)] = 50
    ∧ issues [(1 : ℚ)] =
        ["CRITICAL: Digital clipping (peak >= 0dB)", "DC offset present"] := by
  have hp : 0 < peakDb [(1 : ℚ)] := by
    rw [peakDb, peak_singleton 1 (by norm_num)]
    have hone : (((1 : ℚ) : ℝ)) + 1e-10 = 1 + 1e-10 := by push_cast; ring
    rw [hone]
    apply mul_pos (by norm_num)
    exact Real.logb_pos (by norm_num) (by norm_num)
  have hdc : (0.01 : ℚ) < |meanVal [(1 : ℚ)]| := by
    rw [meanVal_singleton]
    norm_num
  obtain ⟨h1, h2⟩ := C2_digital_clipping_priority [(1 : ℚ)] hp
  rw [if_pos hdc] at h1 h2
  exact ⟨hp, by rw [h1]; norm_num, by rw [h2]⟩

end AudioAnalyzer
